import Mathlib

/-!
Shallow embedding of the core of the `podcasts` repository: the
quality-gated transcript acquisition waterfall
(`src/bot/transcript_fetcher.py`, `src/bot/quality_check.py`) and the
tool-augmented conversation engine with its history sanitizer
(`src/bot/llm.py`).

Modelling conventions: Python floats become exact rationals, Python
exceptions become `Except PyErr`, and the external collaborators
(caption API, downloader, whisper model, Anthropic client, status
callback) become function-valued parameters.  The side effects that the
verified properties talk about (download, transcription and cleanup
invocations) are tracked in explicit effect records.
-/

deriving instance DecidableEq for Except

/-- A Python exception value, as propagated by the embedded code. -/
inductive PyErr where
  | keyError (key : String)
  | exception (msg : String)
deriving DecidableEq, Repr

/-- Exact rational numbers standing in for the Python floats of the source.
Values are unreduced fractions `num / den` with a positive denominator (every
operation below preserves positivity of `den` except division by an exact
zero, on which the Python source itself would raise `ZeroDivisionError` and
which no modelled code path reaches).  All operations are plain structural
`Int`/`Nat` arithmetic, so any proposition about them evaluates inside the
kernel.  CPython float rounding noise is not modelled; no verified property
depends on it. -/
structure PyFloat where
  num : ℤ
  den : ℕ := 1
deriving DecidableEq, Repr

/-- Build the fraction `a / b`. -/
def pf (a : ℤ) (b : ℕ) : PyFloat := ⟨a, b⟩

/-- The embedded integer `n / 1`. -/
def ofNatPF (n : ℕ) : PyFloat := ⟨n, 1⟩

/-- Addition of fractions. -/
def PyFloat.add (x y : PyFloat) : PyFloat :=
  ⟨x.num * y.den + y.num * x.den, x.den * y.den⟩

/-- Subtraction of fractions. -/
def PyFloat.sub (x y : PyFloat) : PyFloat :=
  ⟨x.num * y.den - y.num * x.den, x.den * y.den⟩

/-- Multiplication of fractions. -/
def PyFloat.mul (x y : PyFloat) : PyFloat := ⟨x.num * y.num, x.den * y.den⟩

/-- Division of fractions, keeping the denominator nonnegative. -/
def PyFloat.div (x y : PyFloat) : PyFloat :=
  if y.num < 0 then ⟨-(x.num * (y.den : ℤ)), x.den * y.num.natAbs⟩
  else ⟨x.num * (y.den : ℤ), x.den * y.num.natAbs⟩

/-- Strict comparison by cross-multiplication (denominators are positive). -/
def PyFloat.lt (x y : PyFloat) : Bool := x.num * y.den < y.num * x.den

/-- Non-strict comparison by cross-multiplication. -/
def PyFloat.le (x y : PyFloat) : Bool := x.num * y.den ≤ y.num * x.den

/-- Python `min(x, y)` (first argument wins ties). -/
def PyFloat.min2 (x y : PyFloat) : PyFloat := if PyFloat.le x y then x else y

/-- Whether the value is an exact zero (Python float truthiness). -/
def PyFloat.isZero (x : PyFloat) : Bool := x.num == 0

/-- Python `sum(...)` over a list of values, starting from `0`. -/
def sumPF (l : List PyFloat) : PyFloat := l.foldl PyFloat.add (pf 0 1)

/-- Mathematical floor of a fraction (denominator positive). -/
def PyFloat.floor (x : PyFloat) : ℤ := Int.fdiv x.num x.den

/-- Result record of `check_transcript_quality` (`quality_check.QualityResult`). -/
structure QualityResult where
  passed : Bool
  score : PyFloat
  issues : List String := []
deriving DecidableEq, Repr

/-- Scanner for Python `str.split()` with no arguments: accumulate the
current word in reverse, breaking on whitespace runs and dropping empties. -/
def pySplitAux : List Char → List Char → List String
  | [], cur => if cur.isEmpty then [] else [String.mk cur.reverse]
  | c :: rest, cur =>
    if c.isWhitespace then
      if cur.isEmpty then pySplitAux rest [] else String.mk cur.reverse :: pySplitAux rest []
    else pySplitAux rest (c :: cur)

/-- Python `str.split()` with no arguments. -/
def pySplit (s : String) : List String := pySplitAux s.data []

/-- Leading and trailing whitespace removal on a character list. -/
def trimChars (cs : List Char) : List Char :=
  ((cs.dropWhile Char.isWhitespace).reverse.dropWhile Char.isWhitespace).reverse

/-- Python `str.strip()` with no arguments. -/
def pyStrip (s : String) : String := String.mk (trimChars s.data)

/-- Python `str.lower()` (character-wise lowering). -/
def pyLower (s : String) : String := String.mk (s.data.map Char.toLower)

/-- Whether the first list is an initial run of the second. -/
def startsWithList : List Char → List Char → Bool
  | [], _ => true
  | _ :: _, [] => false
  | a :: as, b :: bs => a == b && startsWithList as bs

/-- Whether the first list occurs contiguously inside the second. -/
def occursWithin (needle : List Char) : List Char → Bool
  | [] => needle.isEmpty
  | c :: rest => startsWithList needle (c :: rest) || occursWithin needle rest

/-- Python `needle in hay` substring test. -/
def containsSub (hay needle : String) : Bool :=
  occursWithin needle.toList hay.toList

/-- Python `f-string` helper for the `:.0f` format used inside issue messages.
The binary-float rounding of CPython is approximated by exact half-up rounding;
no verified property depends on these formatted digits. -/
def fmtInt (q : PyFloat) : String :=
  toString ((q.add (pf 1 2)).floor)

/-- Python `:.0%` format (percentage, no decimals) used inside issue messages. -/
def fmtPct0 (q : PyFloat) : String :=
  toString (((q.mul (pf 100 1)).add (pf 1 2)).floor) ++ "%"

/-- Python `:.1%` format (percentage, one decimal) used inside issue messages. -/
def fmtPct1 (q : PyFloat) : String :=
  let n := ((q.mul (pf 1000 1)).add (pf 1 2)).floor
  toString (n / 10) ++ "." ++ toString (n % 10) ++ "%"

/-- Python `:.1f` format (one decimal) used inside issue messages. -/
def fmtFix1 (q : PyFloat) : String :=
  let n := ((q.mul (pf 10 1)).add (pf 1 2)).floor
  toString (n / 10) ++ "." ++ toString (n % 10)

/-- Python `round(x, 2)` on an exact rational (ties go to the even hundredth). -/
def round2 (q : PyFloat) : PyFloat :=
  let n := q.mul (pf 100 1)
  let f : ℤ := n.floor
  let r := n.sub (pf f 1)
  let k : ℤ :=
    if PyFloat.lt r (pf 1 2) then f
    else if PyFloat.lt (pf 1 2) r then f + 1
    else if f % 2 = 0 then f else f + 1
  pf k 100

/-- Character class `[.!?]` of the sentence-boundary regular expression. -/
def sentenceEndChar (c : Char) : Bool := c == '.' || c == '!' || c == '?'

/-- Whether the most recently consumed character (head of the reversed
accumulator) is a sentence-ending character. -/
def lastIsSentenceEnd : List Char → Bool
  | [] => false
  | c :: _ => sentenceEndChar c

mutual

/-- Embedding of `re.split(r"(?<=[.!?])\s+", text)` from
`check_transcript_quality`: scan the text, accumulating the current segment in
reverse; a whitespace character right after one of `.!?` starts a separator. -/
def segAccum : List Char → List Char → List (List Char)
  | [], cur => [cur.reverse]
  | c :: rest, cur =>
    if c.isWhitespace && lastIsSentenceEnd cur then cur.reverse :: segSkipWs rest
    else segAccum rest (c :: cur)

/-- Consume the rest of a whitespace separator run, then resume scanning. -/
def segSkipWs : List Char → List (List Char)
  | [] => [[]]
  | c :: rest => if c.isWhitespace then segSkipWs rest else segAccum rest [c]

end

/-- The sentence-like segments of a text, as produced by the `re.split` call
in `check_transcript_quality`. -/
def reSplitSegments (s : String) : List String :=
  (segAccum s.toList []).map List.asString

/-- Python `s.strip()[-1] in ".!?"` guarded by `s.strip()` being nonempty. -/
def lastCharIsSentenceEnd (s : String) : Bool :=
  match s.toList.getLast? with
  | some c => sentenceEndChar c
  | none => false

/-- Embedding of `check_transcript_quality` (quality_check.py).  Each numbered
check contributes an optional issue string and an optional sub-score; the
Python list mutation is rendered as pairs of lists that are concatenated at the
end, preserving order.  The Python truthiness test
`expected_duration_seconds and expected_duration_seconds > 0` is rendered as
the presence of the optional argument together with `0 < d`. -/
def check_transcript_quality (text : String)
    (expected_duration_seconds : Option PyFloat := none)
    (threshold : PyFloat := pf 7 10) : QualityResult :=
  let words := pySplit text
  let word_count := words.length
  if word_count < 10 then
    { passed := false, score := pf 0 1, issues := ["Transcript is nearly empty"] }
  else
    -- Check 1: word count vs expected duration
    let step1 : List String × List PyFloat :=
      match expected_duration_seconds with
      | some d =>
        if PyFloat.lt (pf 0 1) d then
          let expected_words := (d.div (pf 60 1)).mul (pf 150 1)
          let word_ratio := (ofNatPF word_count).div expected_words
          if PyFloat.lt word_ratio (pf 3 10) then
            (["Very low word count: " ++ toString word_count ++ " words for "
                ++ fmtInt (d.div (pf 60 1)) ++ " min (expected ~" ++ fmtInt expected_words ++ ")"],
             [pf 2 10])
          else if PyFloat.lt word_ratio (pf 5 10) then
            (["Low word count: " ++ toString word_count ++ " words for "
                ++ fmtInt (d.div (pf 60 1)) ++ " min (expected ~" ++ fmtInt expected_words ++ ")"],
             [pf 5 10])
          else ([], [PyFloat.min2 (pf 1 1) word_ratio])
        else ([], [])
      | none => ([], [])
    -- Check 2: punctuation ratio over sentence-like segments
    let segments := reSplitSegments text
    let step2 : List String × List PyFloat :=
      if 1 < segments.length then
        let punctuated :=
          (segments.filter (fun s => pyStrip s ≠ "" && lastCharIsSentenceEnd (pyStrip s))).length
        let punct_ratio := (ofNatPF punctuated).div (ofNatPF segments.length)
        if PyFloat.lt punct_ratio (pf 1 10) then
          (["Very low punctuation: " ++ fmtPct0 punct_ratio
              ++ " of segments end with sentence-ending punctuation"], [pf 3 10])
        else if PyFloat.lt punct_ratio (pf 3 10) then
          (["Low punctuation ratio: " ++ fmtPct0 punct_ratio], [pf 5 10])
        else ([], [PyFloat.min2 (pf 1 1) punct_ratio])
      else
        if 100 < word_count then
          (["No sentence boundaries detected in long text"], [pf 3 10])
        else ([], [])
    -- Check 3: repeated consecutive words
    let repeated_count :=
      (words.zip words.tail).countP (fun p => pyLower p.1 == pyLower p.2 && 1 < p.1.length)
    let repeat_ratio := (ofNatPF repeated_count).div (ofNatPF (max word_count 1))
    let step3 : List String × List PyFloat :=
      if PyFloat.lt (pf 5 100) repeat_ratio then
        (["High word repetition: " ++ fmtPct1 repeat_ratio], [pf 4 10])
      else ([], [(pf 1 1).sub repeat_ratio])
    -- Check 4: average word length
    let avg_word_len := (ofNatPF (words.map String.length).sum).div (ofNatPF (max word_count 1))
    let step4 : List String × List PyFloat :=
      if PyFloat.lt avg_word_len (pf 3 1) then
        (["Unusually short average word length: " ++ fmtFix1 avg_word_len], [pf 4 10])
      else ([], [PyFloat.min2 (pf 1 1) (avg_word_len.div (pf 5 1))])
    let issues := step1.1 ++ step2.1 ++ step3.1 ++ step4.1
    let scores := step1.2 ++ step2.2 ++ step3.2 ++ step4.2
    let final_score :=
      if scores = [] then pf 0 1 else (sumPF scores).div (ofNatPF scores.length)
    let passed := PyFloat.le threshold final_score &&
      !(issues.any (fun i => containsSub i "Very low" || containsSub i "nearly empty"))
    { passed := passed, score := round2 final_score, issues := issues }

/-- Result record of `TranscriptFetcher.fetch` (`transcript_fetcher.TranscriptResult`). -/
structure TranscriptResult where
  text : String
  language : String
  source : String
  quality_score : PyFloat
  title : Option String := none
  duration : Option PyFloat := none
deriving DecidableEq, Repr

/-- Call sites of the status callback inside `TranscriptFetcher.fetch`, with the
dynamic data interpolated into the progress strings.  The exact Python
formatting of the human-readable text is not modelled; no claim depends on it. -/
inductive StatusMsg where
  | checking_captions
  | quality_too_low (score : PyFloat)
  | downloading_audio
  | downloaded (title : String) (duration_min : PyFloat) (size_mb : PyFloat) (model_size : String)
deriving DecidableEq, Repr

/-- Collaborators of `TranscriptFetcher.fetch`, as functions.
`extract_id` stands for `_extract_youtube_video_id` (a regex probe over the
URL), `fetch_captions` for `_fetch_youtube_captions` (which catches every
exception internally and returns `None`, hence `Option` with no error case),
`download_audio` for `PodcastDownloader.download_audio` (returning audio path,
title, duration in seconds and size in MB, or raising), `transcribe` for the
lazily loaded whisper model (returning the raw segment texts and the detected
language, or raising), and `status_callback` for the optional progress
callback, which may itself raise. -/
structure FetchEnv where
  extract_id : String → Option String
  fetch_captions : String → Option (String × String)
  status_callback : Option (StatusMsg → Except PyErr Unit)
  download_audio : String → Except PyErr (String × String × PyFloat × PyFloat)
  transcribe : String → Except PyErr (List String × String)
  whisper_model_size : String := "base"

/-- Counters and logs of the externally visible effects of one `fetch` call. -/
structure FetchEffects where
  captions_calls : Nat := 0
  download_calls : Nat := 0
  transcribe_calls : Nat := 0
  downloads : List String := []
  cleanup_calls : List String := []
deriving DecidableEq, Repr

/-- Embedding of `if status_callback: status_callback(...)` — the callback is
invoked exactly when present, and its exceptions are not caught here. -/
def invoke_callback (env : FetchEnv) (m : StatusMsg) : Except PyErr Unit :=
  match env.status_callback with
  | none => Except.ok ()
  | some cb => cb m

/-- Step 2 of `TranscriptFetcher.fetch`: notify, download the audio, then
inside a `try` block notify, transcribe and score, with
`downloader.cleanup(audio_file)` in the `finally` clause, so the cleanup
effect is recorded on every exit path of the `try` body. -/
def fetch_transcription_step (env : FetchEnv) (url : String) (eff : FetchEffects) :
    Except PyErr TranscriptResult × FetchEffects :=
  match invoke_callback env StatusMsg.downloading_audio with
  | Except.error e => (Except.error e, eff)
  | Except.ok _ =>
    let eff := { eff with download_calls := eff.download_calls + 1 }
    match env.download_audio url with
    | Except.error e => (Except.error e, eff)
    | Except.ok (audio_file, title, duration, file_size_mb) =>
      let eff := { eff with downloads := eff.downloads ++ [audio_file] }
      -- body of the `try` block
      let body : Except PyErr TranscriptResult × FetchEffects :=
        match invoke_callback env
            (StatusMsg.downloaded title
              (if duration.isZero then pf 0 1 else duration.div (pf 60 1))
              file_size_mb env.whisper_model_size) with
        | Except.error e => (Except.error e, eff)
        | Except.ok _ =>
          let eff := { eff with transcribe_calls := eff.transcribe_calls + 1 }
          match env.transcribe audio_file with
          | Except.error e => (Except.error e, eff)
          | Except.ok (segment_texts, language) =>
            let text := String.intercalate " " (segment_texts.map pyStrip)
            let quality := check_transcript_quality text (some duration)
            (Except.ok { text := text, language := language, source := "whisper",
                         quality_score := quality.score, title := some title,
                         duration := some duration }, eff)
      -- `finally: downloader.cleanup(audio_file)`
      (body.1, { body.2 with cleanup_calls := body.2.cleanup_calls ++ [audio_file] })

/-- Embedding of `TranscriptFetcher.fetch` (transcript_fetcher.py): try YouTube
captions when the URL yields a video id, gate them through
`check_transcript_quality`, and otherwise fall back to download plus whisper
transcription. -/
def fetch (env : FetchEnv) (url : String)
    (expected_duration : Option PyFloat := none) (quality_threshold : PyFloat := pf 7 10) :
    Except PyErr TranscriptResult × FetchEffects :=
  let eff0 : FetchEffects := {}
  match env.extract_id url with
  | some video_id =>
    match invoke_callback env StatusMsg.checking_captions with
    | Except.error e => (Except.error e, eff0)
    | Except.ok _ =>
      let eff1 := { eff0 with captions_calls := 1 }
      match env.fetch_captions video_id with
      | some (text, language) =>
        let quality := check_transcript_quality text expected_duration quality_threshold
        if quality.passed then
          (Except.ok { text := text, language := language, source := "youtube_captions",
                       quality_score := quality.score }, eff1)
        else
          match invoke_callback env (StatusMsg.quality_too_low quality.score) with
          | Except.error e => (Except.error e, eff1)
          | Except.ok _ => fetch_transcription_step env url eff1
      | none => fetch_transcription_step env url eff1
  | none => fetch_transcription_step env url eff0

/-- A serialized content block of a conversation message, as stored in the
JSON history (`llm._serialize_content` produces plain dicts; the sanitizer
inspects their `"type"` field).  `other` covers any further block type
(e.g. `"thinking"`), which every relevant code path treats uniformly. -/
inductive Block where
  | text (text : String)
  | tool_use (id name : String) (input : List (String × String))
  | tool_result (tool_use_id : String) (content : String)
  | other (type : String)
deriving DecidableEq, Repr

/-- Message content: either a plain string or a list of content blocks.
A missing or non-list `"content"` entry behaves, for every code path
modelled here, like one of these two shapes (`.get("content", [])` defaults
to an empty block list, and any non-list value fails `isinstance(content,
list)` exactly as a string does). -/
inductive MsgContent where
  | str (s : String)
  | blocks (bs : List Block)
deriving DecidableEq, Repr

/-- One message of the persisted conversation history. -/
structure Message where
  role : String
  content : MsgContent
deriving DecidableEq, Repr

/-- Python `block.get("type")` on a serialized block dict. -/
def blockType : Block → String
  | Block.text _ => "text"
  | Block.tool_use _ _ _ => "tool_use"
  | Block.tool_result _ _ => "tool_result"
  | Block.other t => t

/-- First branch of the `_sanitize_history` loop: an assistant message whose
list content contains at least one `tool_use` block. -/
def isTrailingToolUseMsg (m : Message) : Bool :=
  m.role == "assistant" &&
    (match m.content with
     | MsgContent.blocks bs => bs.any (fun b => blockType b == "tool_use")
     | MsgContent.str _ => false)

/-- Second branch of the `_sanitize_history` loop: a user message whose list
content consists entirely of `tool_result` blocks (vacuously true for an
empty block list, exactly as Python `all` on an empty sequence). -/
def isTrailingToolResultMsg (m : Message) : Bool :=
  m.role == "user" &&
    (match m.content with
     | MsgContent.blocks bs => bs.all (fun b => blockType b == "tool_result")
     | MsgContent.str _ => false)

/-- A message that the `_sanitize_history` loop pops off the tail. -/
def sanitizeDropPattern (m : Message) : Bool :=
  isTrailingToolUseMsg m || isTrailingToolResultMsg m

/-- The `while clean: ... clean.pop() ... break` loop of `_sanitize_history`,
acting on the reversed history (so the Python `clean[-1]` is the head here). -/
def sanitizeRev : List Message → List Message
  | [] => []
  | m :: rest => if sanitizeDropPattern m then sanitizeRev rest else m :: rest

/-- Embedding of `_sanitize_history` (llm.py): repeatedly drop the last
message while it is an assistant message with `tool_use` blocks or a user
message made only of `tool_result` blocks. -/
def _sanitize_history (history : List Message) : List Message :=
  (sanitizeRev history.reverse).reverse

/-- An apostrophe, built without an apostrophe literal. -/
def squote : String := String.mk [Char.ofNat 39]

/-- The fixed fallback sentence of `LLMClient.chat` for the no-text case. -/
def FALLBACK_TEXT : String :=
  "I processed your request but couldn" ++ squote ++
    "t generate a text response. Please try rephrasing your question."

/-- Python `inputs["query"]`-style lookup on a dict modelled as an
association list; `none` corresponds to a `KeyError`. -/
def lookup_input (inputs : List (String × String)) (key : String) : Option String :=
  (inputs.find? (fun kv => kv.1 == key)).map (fun kv => kv.2)

/-- Python `transcript.replace(".\n", ". ")`: left-to-right, non-overlapping. -/
def replaceDotNewline : List Char → List Char
  | '.' :: '\n' :: rest => '.' :: ' ' :: replaceDotNewline rest
  | c :: rest => c :: replaceDotNewline rest
  | [] => []

/-- Python `text.split(". ")`: split on each non-overlapping occurrence of the
two-character separator, scanning left to right. -/
def splitDotSpace : List Char → List Char → List String
  | '.' :: ' ' :: rest, cur => String.mk cur.reverse :: splitDotSpace rest []
  | c :: rest, cur => splitDotSpace rest (c :: cur)
  | [], cur => [String.mk cur.reverse]

/-- The scan-and-collect loop of `_search_transcript`, over the enumerated
sentence list: on a (case-insensitive) hit, join a window of up to three
sentences, strip it, keep it if new and nonempty, and stop at three matches. -/
def searchLoop (sentences : List String) (query_lower : String) :
    List (Nat × String) → List String → List String
  | [], found => found
  | (i, sentence) :: rest, found =>
    if containsSub (pyLower sentence) query_lower then
      let start := i - 1
      let stop := min sentences.length (i + 2)
      let context := pyStrip (String.intercalate ". " ((sentences.drop start).take (stop - start)))
      let found2 :=
        if context ≠ "" && !(found.contains context) then found ++ [context] else found
      if 3 ≤ found2.length then found2 else searchLoop sentences query_lower rest found2
    else searchLoop sentences query_lower rest found

/-- Embedding of `_search_transcript` (llm.py): keyword search over the
transcript split into sentence-like units on `". "` after normalizing
`".\n"`, returning up to three deduplicated context windows or an explicit
no-mentions message. -/
def _search_transcript (transcript query : String) : String :=
  let query_lower := pyLower query
  let sentences := splitDotSpace (replaceDotNewline transcript.data) []
  let found := searchLoop sentences query_lower sentences.enum []
  if found.isEmpty then
    "No mentions of " ++ squote ++ query ++ squote ++ " found in the transcript."
  else
    String.intercalate "\n\n---\n\n" found

/-- Embedding of `_execute_tool` (llm.py).  `inputs["query"]` on a dict
without that key raises a `KeyError`, which nothing in this function
catches — hence the `Except.error` case. -/
def _execute_tool (name : String) (inputs : List (String × String))
    (transcript : String) : Except PyErr String :=
  if name = "search_transcript" then
    match lookup_input inputs "query" with
    | some query => Except.ok (_search_transcript transcript query)
    | none => Except.error (PyErr.keyError "query")
  else if name = "update_insights" then
    Except.ok "Insights updated successfully."
  else
    Except.ok ("Unknown tool: " ++ name)

/-- Embedding of `_serialize_content` (llm.py): on blocks that are already
plain structured data, `model_dump` serialization is the identity. -/
def _serialize_content (content : List Block) : List Block := content

/-- Embedding of `_process_response` (llm.py): partition the response blocks
into text parts and locally executed tool results, in order; a tool-execution
exception aborts the whole scan, exactly as a raise inside the Python `for`
loop would. -/
def _process_response : List Block → String → Except PyErr (List String × List Block)
  | [], _ => Except.ok ([], [])
  | b :: rest, transcript =>
    match b with
    | Block.text t =>
      match _process_response rest transcript with
      | Except.error e => Except.error e
      | Except.ok (texts, results) => Except.ok (t :: texts, results)
    | Block.tool_use id name input =>
      match _execute_tool name input transcript with
      | Except.error e => Except.error e
      | Except.ok result =>
        match _process_response rest transcript with
        | Except.error e => Except.error e
        | Except.ok (texts, results) =>
          Except.ok (texts, Block.tool_result id result :: results)
    | _ => _process_response rest transcript

/-- The bound of the tool-call loop in `LLMClient.chat`. -/
def MAX_TOOL_ROUNDS : Nat := 5

/-- The `for round_num in range(MAX_TOOL_ROUNDS + 1)` loop of
`LLMClient.chat`, with the remaining iteration count as fuel.  The
Language-Model API collaborator is a function from the outgoing message log
to a response block list (or a raised error).  The second component counts
the API calls performed. -/
def run_rounds (api : List Message → Except PyErr (List Block)) (transcript : String) :
    Nat → List Message → List String → (Except PyErr (List String × List Message)) × Nat
  | 0, messages, all_text_parts => (Except.ok (all_text_parts, messages), 0)
  | fuel + 1, messages, all_text_parts =>
    match api messages with
    | Except.error e => (Except.error e, 1)
    | Except.ok content =>
      match _process_response content transcript with
      | Except.error e => (Except.error e, 1)
      | Except.ok (text_parts, tool_results) =>
        let all_text_parts := all_text_parts ++ text_parts
        let messages := messages ++
          [{ role := "assistant", content := MsgContent.blocks (_serialize_content content) }]
        if tool_results.isEmpty then
          (Except.ok (all_text_parts, messages), 1)
        else
          let messages := messages ++ [{ role := "user", content := MsgContent.blocks tool_results }]
          let rest := run_rounds api transcript fuel messages all_text_parts
          (rest.1, rest.2 + 1)

/-- Embedding of `LLMClient.chat` (llm.py): sanitize the stored history,
append the new user message, loop on tool calls (bounded by
`MAX_TOOL_ROUNDS + 1` model calls), then join and strip the collected text,
substituting the fixed fallback sentence when it is empty.  The system
prompt built from `title` and `insights` is absorbed into the `api`
collaborator, which is the only consumer of it. -/
def chat (api : List Message → Except PyErr (List Block)) (transcript : String)
    (conversation_history : List Message) (user_message : String) :
    (Except PyErr (String × List Message)) × Nat :=
  let clean_history := _sanitize_history conversation_history
  let messages := clean_history ++ [{ role := "user", content := MsgContent.str user_message }]
  let result := run_rounds api transcript (MAX_TOOL_ROUNDS + 1) messages []
  let outcome : Except PyErr (String × List Message) :=
    match result.1 with
    | Except.error e => Except.error e
    | Except.ok (all_text_parts, final_messages) =>
      let joined := pyStrip (String.intercalate "\n" all_text_parts)
      let assistant_text := if joined = "" then FALLBACK_TEXT else joined
      Except.ok (assistant_text, final_messages)
  (outcome, result.2)

/-- The `tool_use` ids issued by a message (empty for string content). -/
def toolUseIds (m : Message) : List String :=
  match m.content with
  | MsgContent.blocks bs =>
    bs.filterMap (fun b => match b with
      | Block.tool_use id _ _ => some id
      | _ => none)
  | MsgContent.str _ => []

/-- The `tool_use` ids answered by the `tool_result` blocks of a message. -/
def toolResultIds (m : Message) : List String :=
  match m.content with
  | MsgContent.blocks bs =>
    bs.filterMap (fun b => match b with
      | Block.tool_result id _ => some id
      | _ => none)
  | MsgContent.str _ => []

/-- Well-formedness of a history log, following the wording of the data-model
invariant of the specification: any assistant message containing one or more
`ToolCall` blocks must be immediately followed by a user message containing
matching `ToolResult` blocks for every `ToolCall` id issued.  This predicate
belongs to the specification side (the source has no such definition); it is
used to state claims about well-formed logs. -/
def specWellFormedLog : List Message → Bool
  | [] => true
  | m :: rest =>
    (if m.role == "assistant" && !(toolUseIds m).isEmpty then
      match rest with
      | [] => false
      | n :: _ =>
        n.role == "user" && (toolUseIds m).all (fun id => (toolResultIds n).contains id)
     else true) && specWellFormedLog rest

/-- Caption text that comfortably passes every quality heuristic. -/
def goodCaptionText : String :=
  "This is a good sentence. Here is another good sentence. Finally a third good sentence here."

/-- A status callback that always raises. -/
def cbRaiseC1 : StatusMsg → Except PyErr Unit :=
  fun _ => Except.error (PyErr.exception "callback failed")

/-- Environment for the C1 counterexample: the URL yields a video id, the
caption adapter would return captions that pass the gate, but the supplied
status callback raises. -/
def envC1 : FetchEnv :=
  { extract_id := fun _ => some "vid123"
    fetch_captions := fun _ => some (goodCaptionText, "en")
    status_callback := some cbRaiseC1
    download_audio := fun _ => Except.error (PyErr.exception "network down")
    transcribe := fun _ => Except.error (PyErr.exception "no model") }

/-- The same environment with no status callback supplied. -/
def envC1ok : FetchEnv := { envC1 with status_callback := none }

/-- A status callback that always raises (C4 counterexample variant). -/
def cbRaiseC4 : StatusMsg → Except PyErr Unit :=
  fun _ => Except.error (PyErr.exception "status edit failed")

/-- Environment for the C4 counterexample: a non-caption URL whose download
and transcription would both succeed, but whose status callback raises. -/
def envC4 : FetchEnv :=
  { extract_id := fun _ => none
    fetch_captions := fun _ => none
    status_callback := some cbRaiseC4
    download_audio := fun _ => Except.ok ("temp/ep1.mp3", "Episode 1", pf 60 1, pf 5 1)
    transcribe := fun _ => Except.ok (["Hello there friend."], "en") }

/-- A status callback that always raises (C4 witness variant). -/
def cbRaiseC4w : StatusMsg → Except PyErr Unit :=
  fun _ => Except.error (PyErr.exception "ui gone")

/-- Environment for the C4 witness. -/
def envC4w : FetchEnv :=
  { extract_id := fun _ => none
    fetch_captions := fun _ => none
    status_callback := some cbRaiseC4w
    download_audio := fun _ => Except.error (PyErr.exception "unused")
    transcribe := fun _ => Except.error (PyErr.exception "unused") }

/-- Environment for the C2 illustration: download succeeds and transcription
raises, the very case in which the `finally` cleanup matters. -/
def envC2 : FetchEnv :=
  { extract_id := fun _ => none
    fetch_captions := fun _ => none
    status_callback := none
    download_audio := fun _ => Except.ok ("temp/ep2.mp3", "Episode 2", pf 120 1, pf 7 1)
    transcribe := fun _ => Except.error (PyErr.exception "whisper crashed") }

/-- A model API that immediately answers with plain text. -/
def exApiText : List Message → Except PyErr (List Block) :=
  fun _ => Except.ok [Block.text "Hello there"]

/-- The updated history produced by `chat` with `exApiText` on an empty log. -/
def exChatMsgs : List Message :=
  [{ role := "user", content := MsgContent.str "hi" },
   { role := "assistant", content := MsgContent.blocks [Block.text "Hello there"] }]

/-- A model API that issues a `search_transcript` call whose input lacks the
required `query` field. -/
def exApiMissingQuery : List Message → Except PyErr (List Block) :=
  fun _ => Except.ok [Block.tool_use "t1" "search_transcript" [("q", "x")]]

/-- An assistant message issuing one tool call. -/
def exMsgToolCall : Message :=
  { role := "assistant",
    content := MsgContent.blocks [Block.tool_use "t1" "search_transcript" [("query", "x")]] }

/-- The user message answering `exMsgToolCall`. -/
def exMsgToolResult : Message :=
  { role := "user",
    content := MsgContent.blocks [Block.tool_result "t1" "some excerpt"] }

/-- A final assistant text message (fits neither orphan pattern). -/
def exMsgFinalText : Message :=
  { role := "assistant", content := MsgContent.blocks [Block.text "All done."] }

/-- A log that ends in a well-formed tool-call/tool-result pair (C3). -/
def exLogPair : List Message :=
  [{ role := "assistant",
     content := MsgContent.blocks [Block.tool_use "t9" "update_insights" [("new_insights", "y")]] },
   { role := "user",
     content := MsgContent.blocks [Block.tool_result "t9" "Insights updated successfully."] }]

/-- A well-formed log, with a leading plain user turn, that still ends in a
completed tool exchange (C7). -/
def exLogWellFormed : List Message :=
  [{ role := "user", content := MsgContent.str "please search" },
   { role := "assistant",
     content := MsgContent.blocks [Block.tool_use "t2" "search_transcript" [("query", "intro")]] },
   { role := "user",
     content := MsgContent.blocks [Block.tool_result "t2" "intro excerpt"] }]

/-- A plain user text message (C7 witness). -/
def exMsgUserText : Message := { role := "user", content := MsgContent.str "thanks" }

/-- A final assistant text message (C7 witness). -/
def exMsgFinalText2 : Message :=
  { role := "assistant", content := MsgContent.blocks [Block.text "You are welcome."] }

theorem sanitizeRev_idem (l : List Message) : sanitizeRev (sanitizeRev l) = sanitizeRev l := by
  induction l with
  | nil => rfl
  | cons m rest ih =>
    by_cases h : sanitizeDropPattern m
    · simp [sanitizeRev, h, ih]
    · simp [sanitizeRev, h]

theorem sanitizeRev_is_tail (l : List Message) : ∃ t, l = t ++ sanitizeRev l := by
  induction l with
  | nil => exact ⟨[], rfl⟩
  | cons m rest ih =>
    by_cases h : sanitizeDropPattern m
    · obtain ⟨t, ht⟩ := ih
      exact ⟨m :: t, by simp [sanitizeRev, h]; exact ht⟩
    · exact ⟨[], by simp [sanitizeRev, h]⟩

theorem take_length_append {α : Type} (a b : List α) : List.take a.length (a ++ b) = a := by
  induction a with
  | nil => simp
  | cons x xs ih => simp [ih]

theorem sanitize_keeps_stable_tail (l : List Message) (m : Message)
    (h : sanitizeDropPattern m = false) :
    _sanitize_history (l ++ [m]) = l ++ [m] := by
  unfold _sanitize_history
  rw [List.reverse_append]
  simp only [List.reverse_cons, List.reverse_nil, List.nil_append, List.singleton_append]
  rw [show sanitizeRev (m :: l.reverse) = m :: l.reverse from by simp [sanitizeRev, h]]
  simp

/-- C10: the sanitized log is an initial segment of the input log —
sanitization only removes messages from the tail, never modifying,
reordering or inserting, so every message of the output appears in the
input at the same position. -/
theorem c10_sanitize_initial_segment (h : List Message) :
    _sanitize_history h = List.take (_sanitize_history h).length h := by
  obtain ⟨t, ht⟩ := sanitizeRev_is_tail h.reverse
  have hh : h = _sanitize_history h ++ t.reverse := by
    unfold _sanitize_history
    have h2 := congrArg List.reverse ht
    simpa [List.reverse_append] using h2
  nth_rewrite 3 [hh]
  exact (take_length_append _ _).symm

/-- C3, counterexample: a history that ends in a well-formed trailing
assistant-tool-call / user-tool-result pair, which `_sanitize_history`
nevertheless removes entirely (the trailing tool-result message is dropped
regardless of its pairing, and then the assistant tool-call message too). -/
theorem c3_counterexample :
    specWellFormedLog exLogPair = true ∧ _sanitize_history exLogPair = [] := by
  constructor
  · decide
  · decide

/-- C3 (amended): the sanitizer removes a trailing well-formed tool-call/
tool-result pair; it preserves such a pair only when the log continues past
it with a message matching neither orphan pattern (e.g. a final assistant
text message), in which case the whole log is left untouched. -/
theorem c3_pair_kept_only_before_final (h : List Message) (a u m : Message)
    (hm : sanitizeDropPattern m = false) :
    _sanitize_history (h ++ [a, u, m]) = h ++ [a, u, m] := by
  have hsplit : h ++ [a, u, m] = (h ++ [a, u]) ++ [m] := by simp
  rw [hsplit, sanitize_keeps_stable_tail _ _ hm]

/-- C3, witness: the pair of `exMsgToolCall`/`exMsgToolResult` followed by a
final assistant text message survives sanitization. -/
theorem c3_witness :
    _sanitize_history ([] ++ [exMsgToolCall, exMsgToolResult, exMsgFinalText]) =
      [] ++ [exMsgToolCall, exMsgToolResult, exMsgFinalText] :=
  c3_pair_kept_only_before_final [] exMsgToolCall exMsgToolResult exMsgFinalText (by decide)

/-- C7, counterexample: a well-formed log (in the sense of the data-model
invariant of the specification) that sanitization alters, refuting the claim
that sanitize fixes every well-formed log. -/
theorem c7_counterexample :
    specWellFormedLog exLogWellFormed = true ∧
      _sanitize_history exLogWellFormed ≠ exLogWellFormed := by
  constructor
  · decide
  · decide

/-- C7 (amended): the sanitizer is idempotent on every log; but the logs it
fixes are not the well-formed ones — they are exactly the logs ending in a
message that matches neither orphan pattern (together with the empty log),
so a well-formed log ending in a completed tool exchange is still trimmed. -/
theorem c7_idempotent_amended :
    (∀ h : List Message, _sanitize_history (_sanitize_history h) = _sanitize_history h) ∧
    (∀ (h : List Message) (m : Message), sanitizeDropPattern m = false →
      _sanitize_history (h ++ [m]) = h ++ [m]) := by
  constructor
  · intro h
    unfold _sanitize_history
    rw [List.reverse_reverse, sanitizeRev_idem]
  · intro h m hm
    exact sanitize_keeps_stable_tail h m hm

/-- C7, witness: a concrete application of the amended fixpoint condition. -/
theorem c7_witness :
    _sanitize_history ([exMsgUserText] ++ [exMsgFinalText2]) =
      [exMsgUserText] ++ [exMsgFinalText2] :=
  c7_idempotent_amended.2 [exMsgUserText] exMsgFinalText2 (by decide)

theorem run_rounds_calls_le (api : List Message → Except PyErr (List Block))
    (transcript : String) :
    ∀ (fuel : Nat) (messages : List Message) (acc : List String),
      (run_rounds api transcript fuel messages acc).2 ≤ fuel := by
  intro fuel
  induction fuel with
  | zero => intro messages acc; simp [run_rounds]
  | succ n ih =>
    intro messages acc
    simp only [run_rounds]
    split
    · simp
    · split
      · simp
      · split
        · simp
        · simpa using Nat.succ_le_succ (ih _ _)

/-- C8: one `chat` call performs at most `MAX_TOOL_ROUNDS + 1` (that is, 6)
calls to the Language-Model API before terminating, for every model
behaviour — the tool-call loop is cut off when the round budget runs out. -/
theorem c8_model_call_bound (api : List Message → Except PyErr (List Block))
    (transcript : String) (history : List Message) (user_message : String) :
    (chat api transcript history user_message).2 ≤ MAX_TOOL_ROUNDS + 1 := by
  have hle := run_rounds_calls_le api transcript (MAX_TOOL_ROUNDS + 1)
    (_sanitize_history history ++ [{ role := "user", content := MsgContent.str user_message }]) []
  simpa only [chat] using hle

/-- C5: whenever `chat` returns normally, its response text is nonempty —
if the accumulated text blocks are empty or whitespace-only when the round
loop ends, the fixed fallback sentence is substituted. -/
theorem c5_nonempty_response (api : List Message → Except PyErr (List Block))
    (transcript : String) (history : List Message) (user_message : String)
    (t : String) (msgs : List Message)
    (h : (chat api transcript history user_message).1 = Except.ok (t, msgs)) :
    t ≠ "" := by
  simp only [chat] at h
  rcases hrr : (run_rounds api transcript (MAX_TOOL_ROUNDS + 1)
      (_sanitize_history history ++ [{ role := "user", content := MsgContent.str user_message }])
      []).1 with e | ⟨parts, m2⟩
  all_goals rw [hrr] at h
  · simp at h
  · simp only [Except.ok.injEq, Prod.mk.injEq] at h
    obtain ⟨ht, -⟩ := h
    by_cases hj : pyStrip (String.intercalate "\n" parts) = ""
    · rw [if_pos hj] at ht
      rw [← ht]
      decide
    · rw [if_neg hj] at ht
      rw [← ht]
      exact hj

/-- C5, witness: a model that answers with plain text produces that text. -/
theorem c5_witness : "Hello there" ≠ "" :=
  c5_nonempty_response exApiText "the transcript" [] "hi" "Hello there" exChatMsgs (by decide)

/-- C6, counterexample: a `search_transcript` call whose input lacks the
required `query` field does not degrade to a textual tool result — it raises
a `KeyError`, and the error propagates out of the whole `chat` round loop. -/
theorem c6_counterexample :
    _execute_tool "search_transcript" [("q", "x")] "some transcript" =
      Except.error (PyErr.keyError "query") ∧
    (chat exApiMissingQuery "some transcript" [] "hi").1 =
      Except.error (PyErr.keyError "query") := by
  constructor
  · decide
  · decide

/-- C6 (amended): an unknown tool name degrades to the textual
`Unknown tool: ...` result, keeping the round loop alive, but malformed
input is not guarded: a `search_transcript` call without a `query` field
raises a `KeyError` that nothing in the engine catches. -/
theorem c6_unknown_tool_amended :
    (∀ (name : String) (inputs : List (String × String)) (transcript : String),
      name ≠ "search_transcript" → name ≠ "update_insights" →
      _execute_tool name inputs transcript = Except.ok ("Unknown tool: " ++ name)) ∧
    (∀ (inputs : List (String × String)) (transcript : String),
      lookup_input inputs "query" = none →
      _execute_tool "search_transcript" inputs transcript =
        Except.error (PyErr.keyError "query")) := by
  constructor
  · intro name inputs transcript h1 h2
    unfold _execute_tool
    rw [if_neg h1, if_neg h2]
  · intro inputs transcript h
    unfold _execute_tool
    rw [if_pos rfl, h]

/-- C6, witness: a concrete unknown tool name yields the textual result. -/
theorem c6_witness :
    _execute_tool "frobnicate" [] "some transcript" =
      Except.ok ("Unknown tool: " ++ "frobnicate") :=
  c6_unknown_tool_amended.1 "frobnicate" [] "some transcript" (by decide) (by decide)

/-- C9: for any text of fewer than 10 whitespace-separated words, and any
expected duration and threshold, the quality assessor short-circuits to
`passed = false`, `score = 0.0` and the single issue
`"Transcript is nearly empty"` — the guard returns before any other
sub-score can contribute. -/
theorem c9_empty_guard (text : String) (dur : Option PyFloat) (threshold : PyFloat)
    (h : (pySplit text).length < 10) :
    check_transcript_quality text dur threshold =
      { passed := false, score := pf 0 1, issues := ["Transcript is nearly empty"] } := by
  simp only [check_transcript_quality]
  rw [if_pos h]

/-- C9, witness: a two-word transcript with a ten-minute expected duration. -/
theorem c9_witness :
    (pySplit "hello world").length < 10 ∧
    check_transcript_quality "hello world" (some (pf 600 1)) (pf 7 10) =
      { passed := false, score := pf 0 1, issues := ["Transcript is nearly empty"] } :=
  ⟨by decide, c9_empty_guard "hello world" (some (pf 600 1)) (pf 7 10) (by decide)⟩

/-- C1, counterexample: an acquisition call in which the URL yields a
caption-bearing video id and the caption adapter would return captions that
pass the gate, yet `fetch` does not return the captions result — the status
callback raises at the very first progress notification and the exception
propagates. -/
theorem c1_counterexample :
    envC1.extract_id "https://youtu.be/vid123" = some "vid123" ∧
    envC1.fetch_captions "vid123" = some (goodCaptionText, "en") ∧
    (check_transcript_quality goodCaptionText none (pf 7 10)).passed = true ∧
    (fetch envC1 "https://youtu.be/vid123" none (pf 7 10)).1 =
      Except.error (PyErr.exception "callback failed") := by
  refine ⟨rfl, rfl, by decide, by decide⟩

/-- C1 (amended): provided no status-callback invocation raises, the
waterfall priority holds as claimed — when the URL yields a video id, the
caption adapter returns text and the assessor passes it at the given
threshold, `fetch` returns the captions `TranscriptResult` carrying the
assessor's score, with the caption adapter consulted once and the download
collaborator and transcription engine never invoked. -/
theorem c1_captions_priority (env : FetchEnv) (url : String)
    (dur : Option PyFloat) (qt : PyFloat) (vid caption_text caption_lang : String)
    (hcb : ∀ m, invoke_callback env m = Except.ok ())
    (hex : env.extract_id url = some vid)
    (hcap : env.fetch_captions vid = some (caption_text, caption_lang))
    (hq : (check_transcript_quality caption_text dur qt).passed = true) :
    fetch env url dur qt =
      (Except.ok { text := caption_text, language := caption_lang,
                   source := "youtube_captions",
                   quality_score := (check_transcript_quality caption_text dur qt).score },
       { captions_calls := 1 }) := by
  simp only [fetch]
  rw [hex]
  simp only [hcb]
  rw [hcap]
  simp only [hq, if_true]

/-- C1, witness: the same environment with no callback supplied returns the
caption result without touching the heavy path. -/
theorem c1_witness :
    fetch envC1ok "https://youtu.be/vid123" none (pf 7 10) =
      (Except.ok { text := goodCaptionText, language := "en",
                   source := "youtube_captions",
                   quality_score := (check_transcript_quality goodCaptionText none (pf 7 10)).score },
       { captions_calls := 1 }) :=
  c1_captions_priority envC1ok "https://youtu.be/vid123" none (pf 7 10)
    "vid123" goodCaptionText "en" (fun _ => rfl) rfl rfl (by decide)

theorem fetch_transcription_step_cleanup (env : FetchEnv) (url : String) (eff : FetchEffects)
    (h : eff.cleanup_calls = eff.downloads) :
    (fetch_transcription_step env url eff).2.cleanup_calls =
      (fetch_transcription_step env url eff).2.downloads := by
  simp only [fetch_transcription_step]
  split
  · simpa using h
  · split
    · simpa using h
    · split
      · simp [h]
      · split
        · simp [h]
        · simp [h]

/-- C2: in every acquisition call, the list of cleanup invocations equals the
list of successfully downloaded audio assets — so whenever the transcription
fallback obtains an asset from the download collaborator, cleanup is called
on that asset exactly once, on every exit path of the transcription phase,
including when the status callback or the transcription engine raises (the
equality is stated over all environments, hence over all such behaviours). -/
theorem c2_cleanup_exactly_once (env : FetchEnv) (url : String)
    (dur : Option PyFloat) (qt : PyFloat) :
    (fetch env url dur qt).2.cleanup_calls = (fetch env url dur qt).2.downloads := by
  simp only [fetch]
  split
  · split
    · rfl
    · split
      · split
        · rfl
        · split
          · rfl
          · exact fetch_transcription_step_cleanup _ _ _ rfl
      · exact fetch_transcription_step_cleanup _ _ _ rfl
  · exact fetch_transcription_step_cleanup _ _ _ rfl

/-- C4, counterexample: an acquisition call whose download and transcription
would both succeed, but whose status callback raises — the orchestration
fails with the callback's exception instead of producing its normal
`TranscriptResult`, and the waterfall does not proceed at all (no download,
no transcription, empty effect record). -/
theorem c4_counterexample :
    fetch envC4 "https://example.com/ep1.mp3" none (pf 7 10) =
      (Except.error (PyErr.exception "status edit failed"), {}) := by
  decide

/-- C4 (amended): `fetch` invokes the status callback unguarded, so a raised
callback exception propagates out of the orchestration before any
collaborator runs; the swallowing the design asks for lives in the callback
supplied by the handler layer (which wraps its UI edit in `try/except` and
fires it through `run_coroutine_threadsafe`), not in the orchestrator. -/
theorem c4_callback_propagates (env : FetchEnv) (url : String)
    (dur : Option PyFloat) (qt : PyFloat) (cb : StatusMsg → Except PyErr Unit) (e : PyErr)
    (hcb : env.status_callback = some cb)
    (hraise : ∀ m, cb m = Except.error e) :
    fetch env url dur qt = (Except.error e, {}) := by
  have hic : ∀ m, invoke_callback env m = Except.error e := by
    intro m
    simp [invoke_callback, hcb, hraise]
  rcases hex : env.extract_id url with _ | vid <;>
    simp [fetch, fetch_transcription_step, hic, hex]

/-- C4, witness: a concrete environment whose callback always raises. -/
theorem c4_witness :
    fetch envC4w "https://example.com/feed.mp3" none (pf 7 10) =
      (Except.error (PyErr.exception "ui gone"), {}) :=
  c4_callback_propagates envC4w "https://example.com/feed.mp3" none (pf 7 10)
    cbRaiseC4w (PyErr.exception "ui gone") rfl (fun _ => rfl)
